import Mathlib

/-!
Shallow embedding of the real-time chat gateway in `server/app.py`
(Socket.IO handlers on the `/chat` namespace together with the Redis-backed
presence helpers `set_online`, `add_to_room`, `remove_from_room`,
`room_users`).  Python strings are sequences of Unicode code points, so chat
text is modelled as `List Char`; Redis sets are modelled as duplicate-free
lists; time is modelled in whole seconds as `Nat`.
-/

namespace SihPeer

/-- Chat text: a Python `str` is a sequence of Unicode code points. -/
abbrev PyStr := List Char

/-- Model of a caller-supplied JWT credential, as seen through
`flask_jwt_extended.decode_token`: what matters to the handlers is whether
verification succeeds and, if so, which subject (`sub`) claim it carries. -/
structure Token where
  valid : Bool
  sub : String
deriving DecidableEq

/-- Embeds `decode_token(token)["sub"]` in `on_connect` (app.py:531-532):
returns the subject claim on a verifiable token, `none` when the library
raises (malformed / bad signature / expired). -/
def decode_token (t : Token) : Option String :=
  if t.valid then some t.sub else none

/-- The shared Redis store as the handlers use it.  `avail` is whether the
module-level `r` is non-`None` (app.py:55-63); `presence uid` is the last
refresh time of the `online:{uid}` key; `rooms roomId` is the
`room:{roomId}:online` set, modelled as a duplicate-free list. -/
structure Store where
  avail : Bool
  presence : String → Option Nat
  rooms : String → List String

/-- Redis `SADD`: adds the element to the set, a no-op when already present. -/
def saddList (l : List String) (x : String) : List String :=
  if x ∈ l then l else x :: l

/-- Redis `SREM`: removes the element from the set, a no-op when absent. -/
def sremList (l : List String) (x : String) : List String :=
  l.filter (fun y => y != x)

/-- Embeds `set_online(user_id)` (app.py:495-500): when Redis is available,
`r.setex(f"online:{user_id}", 60, "1")` refreshes the liveness key with a
60-second time-to-live; otherwise it is a no-op.  `now` is the wall-clock
second at which the handler runs. -/
def set_online (now : Nat) (uid : String) (st : Store) : Store :=
  if st.avail then
    ⟨st.avail, fun u => if u = uid then some now else st.presence u, st.rooms⟩
  else st

/-- Redis TTL semantics of the `online:{uid}` key written by `setex(..., 60, ..)`:
the key exists (the identity is considered online) at second `t` exactly when
some refresh happened at a time `t0` with `t ≤ t0 + 60`; the key then ages out
with no explicit deletion. -/
def isOnline (st : Store) (uid : String) (t : Nat) : Bool :=
  match st.presence uid with
  | none => false
  | some t0 => decide (t ≤ t0 + 60)

/-- Embeds `add_to_room(room_id, user_id)` (app.py:502-507):
`r.sadd(f"room:{room_id}:online", user_id)` when Redis is available. -/
def add_to_room (roomId uid : String) (st : Store) : Store :=
  if st.avail then
    ⟨st.avail, st.presence,
      fun rm => if rm = roomId then saddList (st.rooms rm) uid else st.rooms rm⟩
  else st

/-- Embeds `remove_from_room(room_id, user_id)` (app.py:509-514):
`r.srem(f"room:{room_id}:online", user_id)` when Redis is available. -/
def remove_from_room (roomId uid : String) (st : Store) : Store :=
  if st.avail then
    ⟨st.avail, st.presence,
      fun rm => if rm = roomId then sremList (st.rooms rm) uid else st.rooms rm⟩
  else st

/-- Embeds `room_users(room_id)` (app.py:516-522): the decoded `SMEMBERS` of
`room:{room_id}:online` when Redis is available, `[]` otherwise. -/
def room_users (st : Store) (roomId : String) : List String :=
  if st.avail then st.rooms roomId else []

/-- A live transport connection as the process sees it: `uid` is
`request.environ["uid"]` stored at handshake (app.py:533), `sioRooms` is the
set of Socket.IO rooms this socket has joined via `join_room`/`leave_room`
(flask_socketio keeps per-socket room sets). -/
structure Conn where
  uid : String
  sioRooms : List String
deriving DecidableEq

/-- flask_socketio `join_room(room_id)`: adds the socket to the room set
(set semantics: joining an already-joined room changes nothing). -/
def join_room (c : Conn) (roomId : String) : Conn :=
  ⟨c.uid, saddList c.sioRooms roomId⟩

/-- flask_socketio `leave_room(room_id)`: removes the socket from the room set
(set semantics: leaving a non-joined room changes nothing). -/
def leave_room (c : Conn) (roomId : String) : Conn :=
  ⟨c.uid, sremList c.sioRooms roomId⟩

/-- Addressee of an `emit` call: the requesting socket (no `to=`), or a room
(`to=room_id`). -/
inductive Target where
  | caller : Target
  | room : String → Target
deriving DecidableEq

/-- The outbound events the handlers emit. -/
inductive Event where
  | connected : String → Event
  | room_users : String → List String → Event
  | chat_message : String → String → PyStr → Event
deriving DecidableEq

/-- One `emit(event, payload, ...)` call: the event together with its target. -/
structure Emit where
  target : Target
  event : Event
deriving DecidableEq

/-- Payload of `join_room` / `leave_room` client events: the handlers read only
`data.get("roomId")`. -/
structure RoomPayload where
  roomId : String
deriving DecidableEq

/-- Payload of a `chat_message` client event.  The handler reads only
`data.get("roomId")` and `data.get("text")` (which may be absent, hence
`Option`); `extra` models any other fields the client put in the dict, which
the handler never reads. -/
structure MsgPayload where
  roomId : String
  text : Option PyStr
  extra : List (String × String)
deriving DecidableEq

/-- Embeds `on_connect` (app.py:525-537).  `tok` is `request.args.get("token")`.
No token, or a token on which `decode_token` raises, refuses the handshake
(`return False`) with the store untouched; otherwise the identity is stored in
the environ, marked online, and exactly one `connected` event is emitted to
the caller.  The `Option` result is the accepted identity and the emitted
events, `none` meaning the handshake was refused. -/
def on_connect (tok : Option Token) (now : Nat) (st : Store) :
    Store × Option (String × List Emit) :=
  match tok with
  | none => (st, none)
  | some t =>
    match decode_token t with
    | none => (st, none)
    | some uid =>
      (set_online now uid st, some (uid, [⟨Target.caller, Event.connected uid⟩]))

/-- Embeds `on_join` (app.py:539-545): `join_room`, `add_to_room`, then emit
`room_users` with the refreshed roster to the room. -/
def on_join (c : Conn) (d : RoomPayload) (st : Store) :
    Conn × Store × List Emit :=
  let c' := join_room c d.roomId
  let st' := add_to_room d.roomId c.uid st
  (c', st',
    [⟨Target.room d.roomId, Event.room_users d.roomId (room_users st' d.roomId)⟩])

/-- Embeds `on_leave` (app.py:547-553): `leave_room`, `remove_from_room`, then
emit `room_users` with the refreshed roster to the room. -/
def on_leave (c : Conn) (d : RoomPayload) (st : Store) :
    Conn × Store × List Emit :=
  let c' := leave_room c d.roomId
  let st' := remove_from_room d.roomId c.uid st
  (c', st',
    [⟨Target.room d.roomId, Event.room_users d.roomId (room_users st' d.roomId)⟩])

/-- Embeds `on_message` (app.py:555-561): `text = (data.get("text") or "")[:2000]`
then emit one `chat_message {roomId, userId: environ uid, text}` to the room.
The handler reads nothing from the store and performs no membership check and
no error signalling of any kind. -/
def on_message (c : Conn) (d : MsgPayload) : List Emit :=
  let text := (d.text.getD []).take 2000
  [⟨Target.room d.roomId, Event.chat_message d.roomId c.uid text⟩]

/-- Embeds `on_heartbeat` (app.py:563-565): refresh the liveness key of the
environ identity; no room interaction, nothing emitted. -/
def on_heartbeat (c : Conn) (now : Nat) (st : Store) : Store :=
  set_online now c.uid st

/-- Embeds `on_disconnect` (app.py:568-570): the handler body is `pass` — the
store is untouched and nothing is emitted.  (flask_socketio drops the dead
socket from its local room sets, but the handler performs no unregister, no
`remove_from_room`, no roster publish.) -/
def on_disconnect (c : Conn) (st : Store) : Conn × Store × List Emit :=
  (c, st, [])

/-- One gateway process with its locally attached sockets. -/
structure Proc where
  conns : List Conn
deriving DecidableEq

/-- The sockets of one process that receive an emit addressed `to=roomId`:
exactly the local sockets that joined that Socket.IO room. -/
def localRecipients (p : Proc) (roomId : String) : List Conn :=
  p.conns.filter (fun c => decide (roomId ∈ c.sioRooms))

/-- Recipients of an emit addressed `to=roomId` issued while process `i`
handles the event.  `SocketIO(app, cors_allowed_origins=...)` (app.py:49) is
constructed without a `message_queue`, so no external pub/sub channel exists
and the emit reaches only the sockets of the emitting process itself. -/
def roomRecipients (procs : List Proc) (i : Nat) (roomId : String) : List Conn :=
  match procs[i]? with
  | none => []
  | some p => localRecipients p roomId

/-- A join or leave step in a replayed history (claim C9). -/
inductive RegOp where
  | join : RegOp
  | leave : RegOp
deriving DecidableEq

/-- Apply one join/leave step on one room to a connection's local room set. -/
def applyOp (roomId : String) (c : Conn) : RegOp → Conn
  | RegOp.join => join_room c roomId
  | RegOp.leave => leave_room c roomId

/-- Replay a sequence of join/leave steps on one room. -/
def replay (roomId : String) (c : Conn) : List RegOp → Conn
  | [] => c
  | op :: ops => replay roomId (applyOp roomId c op) ops

/-- Net effect of a join/leave history on membership of the room: with an
empty history membership is unchanged, otherwise it is decided by the last
step. -/
def netJoined (initial : Prop) : List RegOp → Prop
  | [] => initial
  | op :: ops => netJoined (op = RegOp.join) ops

/-- A concrete available store with empty presence and empty rooms. -/
def emptyStore : Store := ⟨true, fun _ => none, fun _ => []⟩

/-- A concrete available store whose room `r1` contains the identity `u1`. -/
def storeR1U1 : Store :=
  ⟨true, fun _ => none, fun rm => if rm = "r1" then ["u1"] else []⟩

/-- A socket for identity `u1`, joined to room `r1`. -/
def connA : Conn := ⟨"u1", ["r1"]⟩

/-- A socket for identity `u2`, joined to room `r1`. -/
def connB : Conn := ⟨"u2", ["r1"]⟩

/-- A two-process deployment: `connA` lives on process 0, `connB` on process 1. -/
def twoProcs : List Proc := [⟨[connA]⟩, ⟨[connB]⟩]

theorem mem_saddList_self (l : List String) (x : String) : x ∈ saddList l x := by
  unfold saddList
  split
  · assumption
  · exact List.mem_cons_self x l

theorem mem_saddList_of_mem {l : List String} {a : String} (h : a ∈ l)
    (b : String) : a ∈ saddList l b := by
  unfold saddList
  split
  · exact h
  · exact List.mem_cons_of_mem b h

theorem saddList_idem (l : List String) (x : String) :
    saddList (saddList l x) x = saddList l x := by
  by_cases h : x ∈ l <;> simp [saddList, h]

theorem not_mem_sremList_self (l : List String) (x : String) :
    x ∉ sremList l x := by
  simp [sremList]

theorem mem_sremList_of_mem {l : List String} {a : String} (h : a ∈ l)
    {b : String} (hne : a ≠ b) : a ∈ sremList l b := by
  unfold sremList
  rw [List.mem_filter]
  exact ⟨h, by simpa using hne⟩

theorem sremList_eq_of_not_mem {l : List String} {x : String} (h : x ∉ l) :
    sremList l x = l := by
  unfold sremList
  rw [List.filter_eq_self]
  intro a ha
  exact bne_iff_ne.mpr (fun e => h (e ▸ ha))

theorem set_online_rooms (now : Nat) (uid : String) (st : Store) :
    (set_online now uid st).rooms = st.rooms := by
  unfold set_online
  split <;> rfl

theorem add_to_room_avail (rm v : String) (st : Store) :
    (add_to_room rm v st).avail = st.avail := by
  unfold add_to_room
  split <;> rfl

theorem add_to_room_rooms_self (rm v : String) (st : Store) (ha : st.avail = true) :
    (add_to_room rm v st).rooms rm = saddList (st.rooms rm) v := by
  simp [add_to_room, ha]

theorem remove_from_room_rooms_self (rm v : String) (st : Store)
    (ha : st.avail = true) :
    (remove_from_room rm v st).rooms rm = sremList (st.rooms rm) v := by
  simp [remove_from_room, ha]

theorem room_users_eq (st : Store) (rm : String) (ha : st.avail = true) :
    room_users st rm = st.rooms rm := by
  simp [room_users, ha]

theorem mem_add_to_room {u R : String} (rm v : String) {st : Store}
    (h : u ∈ st.rooms R) : u ∈ (add_to_room rm v st).rooms R := by
  unfold add_to_room
  split
  · show u ∈ (if R = rm then saddList (st.rooms R) v else st.rooms R)
    split
    · exact mem_saddList_of_mem h v
    · exact h
  · exact h

theorem mem_remove_from_room {u R : String} (rm v : String) {st : Store}
    (h : u ∈ st.rooms R) (hvR : v ≠ u ∨ rm ≠ R) :
    u ∈ (remove_from_room rm v st).rooms R := by
  unfold remove_from_room
  split
  · show u ∈ (if R = rm then sremList (st.rooms R) v else st.rooms R)
    split
    · rename_i hR
      have hv : v ≠ u := by
        rcases hvR with hv | hrm
        · exact hv
        · exact absurd hR.symm hrm
      exact mem_sremList_of_mem h (Ne.symm hv)
    · exact h
  · exact h

theorem on_connect_rooms (tok : Option Token) (now : Nat) (st : Store) :
    ((on_connect tok now st).1).rooms = st.rooms := by
  cases tok with
  | none => rfl
  | some t =>
    cases hd : decode_token t with
    | none =>
      simp only [on_connect]
      rw [hd]
    | some uid =>
      simp only [on_connect]
      rw [hd]
      exact set_online_rooms now uid st

theorem mem_applyOp (r : String) (c : Conn) (op : RegOp) :
    (r ∈ (applyOp r c op).sioRooms) ↔ (op = RegOp.join) := by
  cases op with
  | join =>
    constructor
    · intro _; rfl
    · intro _; exact mem_saddList_self c.sioRooms r
  | leave =>
    constructor
    · intro h; exact absurd h (not_mem_sremList_self c.sioRooms r)
    · intro h; exact RegOp.noConfusion h

theorem netJoined_congr {p q : Prop} (h : p ↔ q) (ops : List RegOp) :
    netJoined p ops ↔ netJoined q ops := by
  cases ops with
  | nil => exact h
  | cons op ops => exact Iff.rfl

theorem replay_mem (r : String) (ops : List RegOp) (c : Conn) :
    (r ∈ (replay r c ops).sioRooms) ↔ netJoined (r ∈ c.sioRooms) ops := by
  induction ops generalizing c with
  | nil => exact Iff.rfl
  | cons op ops ih =>
    exact (ih (applyOp r c op)).trans (netJoined_congr (mem_applyOp r c op) ops)

/-- C1 counterexample: the claim says a `chat_message` for a room the
connection has not joined is rejected with an explicit error and not
delivered.  On the code it is false: with a connection that joined no room at
all, `on_message` still emits the chat event addressed to room `r1` — exactly
one emit, no error of any kind. -/
theorem chat_no_membership_check_cex :
    ("r1" ∉ (⟨"u1", []⟩ : Conn).sioRooms)
    ∧ on_message ⟨"u1", []⟩ ⟨"r1", some ['h', 'i'], []⟩ =
        [⟨Target.room "r1", Event.chat_message "r1" "u1" ['h', 'i']⟩] :=
  ⟨by decide, rfl⟩

/-- C1 amended: `on_message` performs no membership check: its output is
independent of the connection's joined-room set, and for every payload it
relays exactly one `chat_message` to the payload's room, signalling no
error. -/
theorem chat_relayed_without_check (u : String) (rooms1 rooms2 : List String)
    (d : MsgPayload) :
    on_message ⟨u, rooms1⟩ d = on_message ⟨u, rooms2⟩ d
    ∧ on_message ⟨u, rooms1⟩ d =
        [⟨Target.room d.roomId,
          Event.chat_message d.roomId u ((d.text.getD []).take 2000)⟩] :=
  ⟨rfl, rfl⟩

/-- C2 counterexample: the claim says a transport-level disconnect removes the
identity from each joined room's shared membership set.  On the code it is
false: the `disconnect` handler is `pass`, so with `u1` a member of `r1`,
after `on_disconnect` the store is unchanged, `u1` is still a member of `r1`,
and nothing is emitted. -/
theorem disconnect_cleanup_cex :
    ("u1" ∈ storeR1U1.rooms "r1")
    ∧ on_disconnect ⟨"u1", ["r1"]⟩ storeR1U1 =
        (⟨"u1", ["r1"]⟩, storeR1U1, ([] : List Emit))
    ∧ ("u1" ∈ (on_disconnect ⟨"u1", ["r1"]⟩ storeR1U1).2.1.rooms "r1") :=
  ⟨by decide, rfl, by decide⟩

/-- C2 amended: a transport-level disconnect performs no cleanup: the
handler's body is `pass`, so the shared store is returned unchanged (every
identity previously in a room's membership set is still there), and no event
is emitted.  Membership is only ever removed by an explicit `leave_room`. -/
theorem disconnect_no_cleanup (c : Conn) (st : Store) (u R : String)
    (hu : u ∈ st.rooms R) :
    u ∈ (on_disconnect c st).2.1.rooms R
    ∧ (on_disconnect c st).2.2 = []
    ∧ (on_disconnect c st).2.1 = st :=
  ⟨hu, rfl, rfl⟩

/-- C2 amended witness at a concrete input. -/
theorem disconnect_no_cleanup_witness :
    ("u1" ∈ storeR1U1.rooms "r1")
    ∧ ("u1" ∈ (on_disconnect ⟨"u1", ["r1"]⟩ storeR1U1).2.1.rooms "r1") :=
  ⟨by decide,
    (disconnect_no_cleanup ⟨"u1", ["r1"]⟩ storeR1U1 "u1" "r1" (by decide)).1⟩

/-- C3 counterexample: the claim says an event published by one process for
room `r1` is delivered to every connection joined to `r1` on every other
process.  On the code it is false: `SocketIO` is constructed without a
`message_queue`, so when process 0 handles `connA`'s chat message the emit
reaches only process 0's sockets; `connB`, joined to `r1` on process 1,
is not among the recipients. -/
theorem fanout_cex :
    (twoProcs[1]? = some ⟨[connB]⟩)
    ∧ ("r1" ∈ connB.sioRooms)
    ∧ on_message connA ⟨"r1", some ['h', 'i'], []⟩ =
        [⟨Target.room "r1", Event.chat_message "r1" "u1" ['h', 'i']⟩]
    ∧ (connB ∉ roomRecipients twoProcs 0 "r1") :=
  ⟨rfl, by decide, rfl, by decide⟩

/-- C3 amended: with no message queue configured, an emit addressed to a room
reaches only sockets of the process that handles the event: every recipient
is a connection of the handling process that joined that Socket.IO room. -/
theorem fanout_local_only (procs : List Proc) (i : Nat) (roomId : String)
    (c : Conn) (h : c ∈ roomRecipients procs i roomId) :
    ∃ p, procs[i]? = some p ∧ c ∈ p.conns ∧ roomId ∈ c.sioRooms := by
  unfold roomRecipients at h
  cases hp : procs[i]? with
  | none => rw [hp] at h; exact absurd h (List.not_mem_nil c)
  | some p =>
    rw [hp] at h
    unfold localRecipients at h
    rw [List.mem_filter] at h
    exact ⟨p, rfl, h.1, of_decide_eq_true h.2⟩

/-- C3 amended witness at a concrete input. -/
theorem fanout_local_only_witness :
    (connA ∈ roomRecipients twoProcs 0 "r1")
    ∧ (∃ p, twoProcs[0]? = some p ∧ connA ∈ p.conns ∧ "r1" ∈ connA.sioRooms) :=
  ⟨by decide, fanout_local_only twoProcs 0 "r1" connA (by decide)⟩

/-- C4: a handshake with a token that decodes to subject `sub` marks `sub`
online and emits exactly one `connected` event carrying `sub` to the caller;
a missing token or a token on which decoding fails refuses the handshake with
the store unchanged and no event emitted. -/
theorem connect_handshake (tok : Option Token) (now : Nat) (st : Store) :
    (∀ t sub, tok = some t → decode_token t = some sub →
      on_connect tok now st =
        (set_online now sub st,
          some (sub, [⟨Target.caller, Event.connected sub⟩])))
    ∧ (tok = none → on_connect tok now st = (st, none))
    ∧ (∀ t, tok = some t → decode_token t = none →
        on_connect tok now st = (st, none)) := by
  refine ⟨?_, ?_, ?_⟩
  · intro t sub ht hd
    subst ht
    simp only [on_connect]
    rw [hd]
  · intro h
    subst h
    rfl
  · intro t ht hd
    subst ht
    simp only [on_connect]
    rw [hd]

/-- C4 witness at concrete inputs: a valid and an invalid token. -/
theorem connect_handshake_witness :
    (decode_token ⟨true, "u1"⟩ = some "u1")
    ∧ on_connect (some ⟨true, "u1"⟩) 0 emptyStore =
        (set_online 0 "u1" emptyStore,
          some ("u1", [⟨Target.caller, Event.connected "u1"⟩]))
    ∧ on_connect (some ⟨false, "u1"⟩) 0 emptyStore = (emptyStore, none) :=
  ⟨rfl,
    (connect_handshake (some ⟨true, "u1"⟩) 0 emptyStore).1 ⟨true, "u1"⟩ "u1" rfl rfl,
    (connect_handshake (some ⟨false, "u1"⟩) 0 emptyStore).2.2 ⟨false, "u1"⟩ rfl rfl⟩

/-- C5: with the store available, after `u` joins room `R` the shared
membership set for `R` contains `u` and one `room_users` event carrying the
refreshed roster (which lists `u`) is emitted to `R`; after `u` leaves `R`
the set no longer contains `u` and the `room_users` event is emitted
unconditionally, empty roster or not. -/
theorem roster_join_leave (c : Conn) (R : String) (st : Store)
    (ha : st.avail = true) :
    (c.uid ∈ (on_join c ⟨R⟩ st).2.1.rooms R
      ∧ (on_join c ⟨R⟩ st).2.2 =
          [⟨Target.room R,
            Event.room_users R (room_users (on_join c ⟨R⟩ st).2.1 R)⟩]
      ∧ c.uid ∈ room_users (on_join c ⟨R⟩ st).2.1 R)
    ∧ (c.uid ∉ (on_leave c ⟨R⟩ st).2.1.rooms R
      ∧ (on_leave c ⟨R⟩ st).2.2 =
          [⟨Target.room R,
            Event.room_users R (room_users (on_leave c ⟨R⟩ st).2.1 R)⟩]) := by
  refine ⟨⟨?_, rfl, ?_⟩, ?_, rfl⟩
  · show c.uid ∈ (add_to_room R c.uid st).rooms R
    rw [add_to_room_rooms_self R c.uid st ha]
    exact mem_saddList_self _ _
  · show c.uid ∈ room_users (add_to_room R c.uid st) R
    rw [room_users_eq _ _ (by rw [add_to_room_avail]; exact ha),
      add_to_room_rooms_self R c.uid st ha]
    exact mem_saddList_self _ _
  · show c.uid ∉ (remove_from_room R c.uid st).rooms R
    rw [remove_from_room_rooms_self R c.uid st ha]
    exact not_mem_sremList_self _ _

/-- C5 witness at concrete inputs. -/
theorem roster_join_leave_witness :
    (emptyStore.avail = true)
    ∧ ("u1" ∈ (on_join ⟨"u1", []⟩ ⟨"r1"⟩ emptyStore).2.1.rooms "r1")
    ∧ ("u1" ∉ (on_leave ⟨"u1", ["r1"]⟩ ⟨"r1"⟩ emptyStore).2.1.rooms "r1") :=
  ⟨rfl, (roster_join_leave ⟨"u1", []⟩ "r1" emptyStore rfl).1.1,
    (roster_join_leave ⟨"u1", ["r1"]⟩ "r1" emptyStore rfl).2.1⟩

/-- C6: for text longer than 2000 code points, `on_message` delivers a single
`chat_message` whose text is the 2000-code-point truncation of the input,
which has length exactly 2000 and is a prefix of the input; the emit happens
with no error. -/
theorem truncate_2000 (c : Conn) (d : MsgPayload) (input : PyStr)
    (ht : d.text = some input) (hl : 2000 < input.length) :
    on_message c d =
      [⟨Target.room d.roomId,
        Event.chat_message d.roomId c.uid (input.take 2000)⟩]
    ∧ (input.take 2000).length = 2000
    ∧ input.take 2000 <+: input := by
  refine ⟨by simp [on_message, ht], ?_,
    ⟨input.drop 2000, List.take_append_drop 2000 input⟩⟩
  rw [List.length_take]
  exact Nat.min_eq_left (Nat.le_of_lt hl)

/-- C6 witness at a concrete 2001-code-point input. -/
theorem truncate_2000_witness :
    ((⟨"r1", some (List.replicate 2001 'a'), []⟩ : MsgPayload).text =
        some (List.replicate 2001 'a'))
    ∧ 2000 < (List.replicate 2001 'a').length
    ∧ ((List.replicate 2001 'a').take 2000).length = 2000 :=
  ⟨rfl, by rw [List.length_replicate]; omega,
    (truncate_2000 ⟨"u1", ["r1"]⟩ ⟨"r1", some (List.replicate 2001 'a'), []⟩
      (List.replicate 2001 'a') rfl (by rw [List.length_replicate]; omega)).2.1⟩

/-- C7: with the store available, a liveness refresh at second `T` (as
performed by `set_online`, called from both `on_connect` and `on_heartbeat`)
makes the identity online at every second from `T` to `T + 60` and no longer
online at `T + 61`, without any further refresh or explicit deletion. -/
theorem liveness_expiry (uid : String) (T : Nat) (st : Store)
    (ha : st.avail = true) :
    (∀ t, T ≤ t → t ≤ T + 60 → isOnline (set_online T uid st) uid t = true)
    ∧ isOnline (set_online T uid st) uid (T + 61) = false
    ∧ (∀ (c : Conn) (now : Nat) (st2 : Store),
        on_heartbeat c now st2 = set_online now c.uid st2) := by
  refine ⟨?_, ?_, fun _ _ _ => rfl⟩
  · intro t h1 h2
    simp [set_online, ha, isOnline, h2]
  · simp [set_online, ha, isOnline]

/-- C7 witness at a concrete identity and refresh time. -/
theorem liveness_expiry_witness :
    (emptyStore.avail = true)
    ∧ isOnline (set_online 0 "u1" emptyStore) "u1" 60 = true
    ∧ isOnline (set_online 0 "u1" emptyStore) "u1" 61 = false :=
  ⟨rfl, (liveness_expiry "u1" 0 emptyStore rfl).1 60 (by decide) (by decide),
    (liveness_expiry "u1" 0 emptyStore rfl).2.1⟩

/-- C8: a member `u` of room `R`'s shared membership set stays a member
across every operation except an explicit leave of `R` by `u` itself:
handshakes, joins, leaves by other identities or of other rooms, heartbeats
and disconnects all preserve membership, and the membership component of the
store does not depend on the presence (liveness) component at all, so expiry
of `u`'s liveness record can never remove `u` from `R`. -/
theorem membership_never_expires (u R : String) (st : Store)
    (hu : u ∈ st.rooms R) :
    (∀ tok now, u ∈ ((on_connect tok now st).1).rooms R)
    ∧ (∀ (c : Conn) (d : RoomPayload), u ∈ (on_join c d st).2.1.rooms R)
    ∧ (∀ (c : Conn) (d : RoomPayload), c.uid ≠ u ∨ d.roomId ≠ R →
        u ∈ (on_leave c d st).2.1.rooms R)
    ∧ (∀ (c : Conn) (now : Nat), u ∈ (on_heartbeat c now st).rooms R)
    ∧ (∀ c : Conn, u ∈ (on_disconnect c st).2.1.rooms R)
    ∧ (∀ f, (Store.mk st.avail f st.rooms).rooms R = st.rooms R) := by
  refine ⟨?_, ?_, ?_, ?_, fun c => hu, fun f => rfl⟩
  · intro tok now
    rw [on_connect_rooms]
    exact hu
  · intro c d
    exact mem_add_to_room d.roomId c.uid hu
  · intro c d hne
    exact mem_remove_from_room d.roomId c.uid hu hne
  · intro c now
    show u ∈ (set_online now c.uid st).rooms R
    rw [set_online_rooms]
    exact hu

/-- C8 witness at a concrete store: `u1` survives a leave by `u2` and a
heartbeat. -/
theorem membership_never_expires_witness :
    ("u1" ∈ storeR1U1.rooms "r1")
    ∧ ("u1" ∈ (on_leave ⟨"u2", ["r1"]⟩ ⟨"r1"⟩ storeR1U1).2.1.rooms "r1")
    ∧ ("u1" ∈ (on_heartbeat ⟨"u1", ["r1"]⟩ 99 storeR1U1).rooms "r1") :=
  ⟨by decide,
    (membership_never_expires "u1" "r1" storeR1U1 (by decide)).2.2.1
      ⟨"u2", ["r1"]⟩ ⟨"r1"⟩ (Or.inl (by decide)),
    (membership_never_expires "u1" "r1" storeR1U1 (by decide)).2.2.2.1
      ⟨"u1", ["r1"]⟩ 99⟩

/-- C9: joining an already-joined room equals joining once, leaving a
non-joined room is a no-op, and over any replayed sequence of join/leave
steps on one room the resulting joined-room state equals the net effect of
the sequence; the shared-set operations `SADD`/`SREM` are idempotent the same
way. -/
theorem join_leave_idempotent (c : Conn) (r : String) (ops : List RegOp) :
    join_room (join_room c r) r = join_room c r
    ∧ (r ∉ c.sioRooms → leave_room c r = c)
    ∧ ((r ∈ (replay r c ops).sioRooms) ↔ netJoined (r ∈ c.sioRooms) ops)
    ∧ (∀ (l : List String) (u : String),
        saddList (saddList l u) u = saddList l u)
    ∧ (∀ (l : List String) (u : String), u ∉ l → sremList l u = l) := by
  refine ⟨?_, ?_, replay_mem r ops c, fun l u => saddList_idem l u,
    fun l u h => sremList_eq_of_not_mem h⟩
  · show (⟨c.uid, saddList (saddList c.sioRooms r) r⟩ : Conn) =
      ⟨c.uid, saddList c.sioRooms r⟩
    rw [saddList_idem]
  · intro h
    show (⟨c.uid, sremList c.sioRooms r⟩ : Conn) = c
    rw [sremList_eq_of_not_mem h]

/-- C9 witness: a fresh connection, and the history join-join-leave nets to
not-joined. -/
theorem join_leave_idempotent_witness :
    ("r1" ∉ (⟨"u1", []⟩ : Conn).sioRooms)
    ∧ (leave_room ⟨"u1", []⟩ "r1" = (⟨"u1", []⟩ : Conn))
    ∧ ((("r1" : String) ∈
          (replay "r1" ⟨"u1", []⟩ [RegOp.join, RegOp.join, RegOp.leave]).sioRooms) ↔
        netJoined (("r1" : String) ∈ (⟨"u1", []⟩ : Conn).sioRooms)
          [RegOp.join, RegOp.join, RegOp.leave]) :=
  ⟨by decide, (join_leave_idempotent ⟨"u1", []⟩ "r1" []).2.1 (by decide),
    (join_leave_idempotent ⟨"u1", []⟩ "r1"
      [RegOp.join, RegOp.join, RegOp.leave]).2.2.1⟩

/-- C10: the `userId` of a delivered `chat_message` is the identity stored
for the connection at handshake, never anything from the payload: two sends
over the same connection whose payloads agree on `roomId` and `text` but
differ in any other fields produce identical events, and the emitted event's
`userId` is the connection's identity. -/
theorem userid_from_handshake (c : Conn) (d1 d2 : MsgPayload)
    (hr : d1.roomId = d2.roomId) (htx : d1.text = d2.text) :
    on_message c d1 = on_message c d2
    ∧ on_message c d1 =
        [⟨Target.room d1.roomId,
          Event.chat_message d1.roomId c.uid ((d1.text.getD []).take 2000)⟩] := by
  constructor
  · simp [on_message, hr, htx]
  · rfl

/-- C10 witness: two payloads differing only in an extra `userId` field the
handler never reads. -/
theorem userid_from_handshake_witness :
    ((⟨"r1", some ['h', 'i'], []⟩ : MsgPayload).roomId =
        (⟨"r1", some ['h', 'i'], [("userId", "u9")]⟩ : MsgPayload).roomId)
    ∧ on_message ⟨"u1", ["r1"]⟩ ⟨"r1", some ['h', 'i'], []⟩ =
        on_message ⟨"u1", ["r1"]⟩ ⟨"r1", some ['h', 'i'], [("userId", "u9")]⟩ :=
  ⟨rfl,
    (userid_from_handshake ⟨"u1", ["r1"]⟩ ⟨"r1", some ['h', 'i'], []⟩
      ⟨"r1", some ['h', 'i'], [("userId", "u9")]⟩ rfl rfl).1⟩

end SihPeer
